import Mathlib

/-!
# Verification of the CementAI Nexus backend core

A shallow embedding of the backend of the cement-operations dashboard
(`backend/src/index.ts`, `backend/src/simulation/dataGenerator.ts`,
`backend/src/ai/geminiService.ts`) together with proofs of the behavioural
claims about it.

Modelling conventions:
* JavaScript numbers are modelled as elements of a linear ordered field;
  definitions that never touch `Math.sin` are kept polymorphic so they can be
  evaluated at `ℚ`, while the trigonometric generators live at `ℝ`.
* Every call to `Math.random()` is a fresh draw from an ambient stream
  `g : ℕ → α`; draws are threaded positionally in the exact evaluation order
  of the JavaScript source (a ternary whose second draw is evaluated lazily
  consumes one or two positions accordingly, and the consumer returns the
  next unused position).
* Wall-clock values are passed explicitly: `t` is the elapsed time in hours
  since the simulator's construction (`this.baseTime`), `nowMs` the current
  epoch milliseconds.
-/

namespace CementOps

/-! ## Signal synthesizer (`dataGenerator.ts`) -/

/-- `CementPlantSimulator.getRandomInRange(min, max, noise)`:
`base = min + Math.random() * (max - min)`,
`noiseValue = base * noise * (Math.random() - 0.5) * 2`,
result `Math.max(min, Math.min(max, base + noiseValue))`.
The two `Math.random()` draws are the explicit arguments `r1`, `r2`;
the source's parameters `min`/`max` are named `lo`/`hi` here to avoid
shadowing the lattice operations. -/
def getRandomInRange {α : Type} [LinearOrderedField α] (r1 r2 lo hi noise : α) : α :=
  let base := lo + r1 * (hi - lo)
  let noiseValue := base * noise * (r2 - 1/2) * 2
  max lo (min hi (base + noiseValue))

/-- `CementPlantSimulator.generateCyclicalValue(baseValue, amplitude, period, phase)`:
`timeInHours` (the elapsed hours since `baseTime`) is passed explicitly as `t`;
returns `baseValue + amplitude * Math.sin(2π t / period + phase)`. -/
noncomputable def generateCyclicalValue (baseValue amplitude period phase t : ℝ) : ℝ :=
  baseValue + amplitude * Real.sin (2 * Real.pi * t / period + phase)

/-- Clamp bound used throughout: `getRandomInRange` always lands in `[lo, hi]`
whenever `lo ≤ hi`, independently of the draws. -/
theorem getRandomInRange_mem {α : Type} [LinearOrderedField α]
    (r1 r2 lo hi noise : α) (h : lo ≤ hi) :
    lo ≤ getRandomInRange r1 r2 lo hi noise ∧ getRandomInRange r1 r2 lo hi noise ≤ hi := by
  unfold getRandomInRange
  constructor
  · exact le_max_left _ _
  · exact max_le h (min_le_left _ _)

/-- **C6.** For every `min ≤ max` and every noise fraction, `getRandomInRange`
returns a value `v` with `min ≤ v ≤ max`: the proportional jitter is re-clamped
to the interval.  (The clamp makes this hold for arbitrary draws; in
particular it holds for draws in `[0,1)`.) -/
theorem c6_getRandomInRange_bounded (r1 r2 lo hi noise : ℝ)
    (hr1 : 0 ≤ r1 ∧ r1 < 1) (hr2 : 0 ≤ r2 ∧ r2 < 1) (h : lo ≤ hi) :
    lo ≤ getRandomInRange r1 r2 lo hi noise ∧ getRandomInRange r1 r2 lo hi noise ≤ hi :=
  getRandomInRange_mem r1 r2 lo hi noise h

/-- Witness for C6 at concrete inputs. -/
theorem c6_getRandomInRange_bounded_witness :
    (3 : ℝ) ≤ getRandomInRange (1/2) (1/2) 3 7 (1/10) ∧
      getRandomInRange ((1:ℝ)/2) (1/2) 3 7 (1/10) ≤ 7 :=
  c6_getRandomInRange_bounded (1/2) (1/2) 3 7 (1/10)
    (by norm_num) (by norm_num) (by norm_num)

/-- **C7.** `generateCyclicalValue` equals
`base + amplitude * sin(2π t / period + phase)` as a pure function of the
elapsed hours `t` and the parameters, and is periodic: whenever `period ≠ 0`,
its value at `t + period` equals its value at `t`. -/
theorem c7_generateCyclicalValue_periodic (baseValue amplitude period phase t : ℝ) :
    generateCyclicalValue baseValue amplitude period phase t =
      baseValue + amplitude * Real.sin (2 * Real.pi * t / period + phase) ∧
    (period ≠ 0 →
      generateCyclicalValue baseValue amplitude period phase (t + period) =
        generateCyclicalValue baseValue amplitude period phase t) := by
  refine ⟨rfl, fun hp => ?_⟩
  unfold generateCyclicalValue
  have harg : 2 * Real.pi * (t + period) / period + phase =
      (2 * Real.pi * t / period + phase) + 2 * Real.pi := by
    field_simp
    ring
  rw [harg, Real.sin_add_two_pi]

/-- Witness for C7 at concrete inputs (period `3 ≠ 0`). -/
theorem c7_generateCyclicalValue_periodic_witness :
    generateCyclicalValue 1450 40 3 0 (5 + 3) = generateCyclicalValue 1450 40 3 0 5 :=
  (c7_generateCyclicalValue_periodic 1450 40 3 0 5).2 (by norm_num)

/-- `generateCyclicalValue` stays in the amplitude envelope around the base. -/
theorem generateCyclicalValue_mem (baseValue amplitude period phase t : ℝ)
    (ha : 0 ≤ amplitude) :
    baseValue - amplitude ≤ generateCyclicalValue baseValue amplitude period phase t ∧
      generateCyclicalValue baseValue amplitude period phase t ≤ baseValue + amplitude := by
  unfold generateCyclicalValue
  have h1 := Real.neg_one_le_sin (2 * Real.pi * t / period + phase)
  have h2 := Real.sin_le_one (2 * Real.pi * t / period + phase)
  constructor
  · nlinarith
  · nlinarith

/-! ## Snapshot generator: process parameters (`dataGenerator.ts`) -/

/-- `ProcessParameters` (`data/models.ts`), numeric fields only; the
`timestamp: Date` field carries no behavioural content and is omitted. -/
structure ProcessParameters where
  kiln_temperature : ℝ
  kiln_pressure : ℝ
  raw_mill_power : ℝ
  cement_mill_power : ℝ
  production_rate : ℝ
  energy_consumption : ℝ
  alternative_fuel_rate : ℝ
  raw_meal_flow : ℝ
  cement_fineness : ℝ
  clinker_temperature : ℝ
  exhaust_fan_speed : ℝ
  preheater_temperature : ℝ

/-- The local `efficiency` computed at the top of
`generateProcessParameters`:
`0.8 + 0.15 * sin(2π·timeHours/24) + getRandomInRange(-0.05, 0.05, 0.5)`,
with the two draws of that `getRandomInRange` call at stream positions 0, 1. -/
noncomputable def processEfficiency (t : ℝ) (g : ℕ → ℝ) : ℝ :=
  0.8 + 0.15 * Real.sin (2 * Real.pi * t / 24) +
    getRandomInRange (g 0) (g 1) (-0.05) 0.05 0.5

/-- `CementPlantSimulator.generateProcessParameters()`.  `cap` is
`config.plant_capacity`, `t` the elapsed hours since `baseTime`, and `g` the
`Math.random()` stream; the eight `getRandomInRange` calls consume draw pairs
in source evaluation order (efficiency first, then the object-literal fields
top to bottom). -/
noncomputable def generateProcessParameters (cap t : ℝ) (g : ℕ → ℝ) : ProcessParameters :=
  let efficiency := processEfficiency t g
  { kiln_temperature := generateCyclicalValue 1450 40 4 0 t
    kiln_pressure := getRandomInRange (g 2) (g 3) (-15) (-5) 0.1
    raw_mill_power := generateCyclicalValue 2800 200 6 0 t * efficiency
    cement_mill_power := generateCyclicalValue 3200 250 8 0 t * efficiency
    production_rate := cap * efficiency
    energy_consumption := getRandomInRange (g 4) (g 5) 85 105 0.1 / efficiency
    alternative_fuel_rate := getRandomInRange (g 6) (g 7) 15 35 0.1
    raw_meal_flow := cap * 1.55 * efficiency
    cement_fineness := getRandomInRange (g 8) (g 9) 340 380 0.1
    clinker_temperature := getRandomInRange (g 10) (g 11) 1100 1200 0.1
    exhaust_fan_speed := getRandomInRange (g 12) (g 13) 480 520 0.1
    preheater_temperature := getRandomInRange (g 14) (g 15) 320 380 0.1 }

/-- The efficiency factor always lies in `[0.6, 1]`: the sine term contributes
`±0.15` and the clamped random term `±0.05` around `0.8`. -/
theorem processEfficiency_mem (t : ℝ) (g : ℕ → ℝ) :
    (0.6 : ℝ) ≤ processEfficiency t g ∧ processEfficiency t g ≤ 1 := by
  unfold processEfficiency
  have h1 := Real.neg_one_le_sin (2 * Real.pi * t / 24)
  have h2 := Real.sin_le_one (2 * Real.pi * t / 24)
  have h3 := getRandomInRange_mem (g 0) (g 1) (-0.05 : ℝ) 0.05 0.5 (by norm_num)
  constructor
  · linarith [h3.1]
  · linarith [h3.2]

/-- **C8.** Every `ProcessParameters` record produced by
`generateProcessParameters` satisfies its declared physical bounds:
`kiln_temperature ∈ [1410, 1490]` (the `1450 ± 40` envelope), and
`raw_mill_power`, `cement_mill_power`, `production_rate` and
`energy_consumption` are never negative, assuming a positive configured
`plant_capacity` (and draws in `[0,1)`, which the clamps make unnecessary). -/
theorem c8_processParameters_bounds (cap t : ℝ) (g : ℕ → ℝ)
    (hcap : 0 < cap) (hg : ∀ i, 0 ≤ g i ∧ g i < 1) :
    (1410 ≤ (generateProcessParameters cap t g).kiln_temperature ∧
      (generateProcessParameters cap t g).kiln_temperature ≤ 1490) ∧
    0 ≤ (generateProcessParameters cap t g).raw_mill_power ∧
    0 ≤ (generateProcessParameters cap t g).cement_mill_power ∧
    0 ≤ (generateProcessParameters cap t g).production_rate ∧
    0 ≤ (generateProcessParameters cap t g).energy_consumption := by
  have heff := processEfficiency_mem t g
  have heff0 : (0 : ℝ) ≤ processEfficiency t g := by linarith [heff.1]
  simp only [generateProcessParameters]
  refine ⟨⟨?_, ?_⟩, ?_, ?_, ?_, ?_⟩
  · have := (generateCyclicalValue_mem 1450 40 4 0 t (by norm_num)).1
    linarith
  · have := (generateCyclicalValue_mem 1450 40 4 0 t (by norm_num)).2
    linarith
  · have h := (generateCyclicalValue_mem 2800 200 6 0 t (by norm_num)).1
    exact mul_nonneg (by linarith) heff0
  · have h := (generateCyclicalValue_mem 3200 250 8 0 t (by norm_num)).1
    exact mul_nonneg (by linarith) heff0
  · exact mul_nonneg (le_of_lt hcap) heff0
  · have h := (getRandomInRange_mem (g 4) (g 5) (85 : ℝ) 105 0.1 (by norm_num)).1
    exact div_nonneg (by linarith) heff0

/-- Witness for C8 at concrete inputs. -/
theorem c8_processParameters_bounds_witness :
    (1410 ≤ (generateProcessParameters 2000 0 (fun _ => 1/2)).kiln_temperature ∧
      (generateProcessParameters 2000 0 (fun _ => 1/2)).kiln_temperature ≤ 1490) ∧
    0 ≤ (generateProcessParameters 2000 0 (fun _ => 1/2)).raw_mill_power ∧
    0 ≤ (generateProcessParameters 2000 0 (fun _ => 1/2)).cement_mill_power ∧
    0 ≤ (generateProcessParameters 2000 0 (fun _ => 1/2)).production_rate ∧
    0 ≤ (generateProcessParameters 2000 0 (fun _ => 1/2)).energy_consumption :=
  c8_processParameters_bounds 2000 0 (fun _ => 1/2) (by norm_num)
    (fun _ => ⟨by norm_num, by norm_num⟩)

/-! ## Snapshot generator: equipment status (`dataGenerator.ts`) -/

/-- The `status` union of `EquipmentStatus` in `data/models.ts`:
`'running' | 'stopped' | 'maintenance' | 'error'`. -/
inductive EquipStatusKind where
  | running
  | stopped
  | maintenance
  | error
deriving DecidableEq, Repr

/-- The `severity` union of `Alert` in `data/models.ts`. -/
inductive AlertSeverity where
  | low
  | medium
  | high
  | critical
deriving DecidableEq, Repr

/-- `Alert` (`data/models.ts`).  `timestamp` is epoch milliseconds; `type` is
the string drawn from the four-element list in `generateAlertsForEquipment`
(`none` models JavaScript `undefined` on an out-of-range index). -/
structure Alert (α : Type) where
  id : String
  timestamp : α
  severity : AlertSeverity
  type : Option String
  message : String
  acknowledged : Bool
  resolved : Bool
  equipment_id : String
deriving DecidableEq, Repr

/-- `EquipmentStatus` (`data/models.ts`); `last_maintenance` is epoch
milliseconds. -/
structure EquipmentStatus (α : Type) where
  equipment_id : String
  equipment_name : String
  status : EquipStatusKind
  efficiency : α
  temperature : α
  vibration_level : α
  power_consumption : α
  runtime_hours : α
  last_maintenance : α
  location : String
  alerts : List String
deriving DecidableEq, Repr

/-- `CementPlantSimulator.generateAlertsForEquipment(equipmentId)`.
`uuid` stands for the externally generated `uuidv4()`; draws are threaded
from position `i`: the `0.3` gate first, then (when an alert is emitted) the
timestamp offset, the lazily evaluated severity ternary (one or two draws),
the type index, `acknowledged` and `resolved`.  Returns the alerts and the
next unused draw position. -/
def generateAlertsForEquipment {α : Type} [LinearOrderedField α] [FloorRing α]
    (uuid : String) (nowMs : α) (g : ℕ → α) (i : ℕ) (equipmentId : String) :
    List (Alert α) × ℕ :=
  if g i < 0.3 then
    let sev : AlertSeverity × ℕ :=
      if g (i + 2) > 0.7 then (AlertSeverity.high, i + 3)
      else if g (i + 3) > 0.4 then (AlertSeverity.medium, i + 4)
      else (AlertSeverity.low, i + 4)
    let j := sev.2
    let tidx := ⌊g j * 4⌋
    ([{ id := uuid
        timestamp := nowMs - g (i + 1) * (24 * 60 * 60 * 1000)
        severity := sev.1
        type := if 0 ≤ tidx then
            ["temperature", "vibration", "power", "efficiency"].get? tidx.toNat
          else none
        message := equipmentId ++ ": Parameter deviation detected"
        acknowledged := decide (g (j + 1) > 0.3)
        resolved := decide (g (j + 2) > 0.6)
        equipment_id := equipmentId }], j + 3)
  else ([], i + 1)

/-- The fixed equipment list at the top of
`CementPlantSimulator.generateEquipmentStatus()` (id, name). -/
def equipmentUnits : List (String × String) :=
  [("KILN_01", "Rotary Kiln #1"),
   ("RAW_MILL_01", "Raw Mill #1"),
   ("CEMENT_MILL_01", "Cement Mill #1"),
   ("PREHEATER_01", "Preheater Tower"),
   ("COOLER_01", "Grate Cooler"),
   ("CRUSHER_01", "Limestone Crusher"),
   ("SEPARATOR_01", "Cement Separator"),
   ("FAN_01", "Exhaust Fan")]

/-- The record built for one unit inside the `equipment.map` of
`generateEquipmentStatus`.  The status ternary consumes one draw when the
first test passes (`running`) and two otherwise; the remaining fields consume
draws top to bottom in object-literal order. -/
def generateEquipmentUnit {α : Type} [LinearOrderedField α] [FloorRing α]
    (uuid : String) (nowMs : α) (g : ℕ → α) (i : ℕ) (eqId eqName : String) :
    EquipmentStatus α × ℕ :=
  let st : EquipStatusKind × ℕ :=
    if g i > 0.05 then (EquipStatusKind.running, i + 1)
    else if g (i + 1) > 0.5 then (EquipStatusKind.maintenance, i + 2)
    else (EquipStatusKind.error, i + 2)
  let j := st.2
  let al := generateAlertsForEquipment uuid nowMs g (j + 12) eqId
  ({ equipment_id := eqId
     equipment_name := eqName
     status := st.1
     efficiency := getRandomInRange (g j) (g (j + 1)) 85 98 0.1
     temperature := getRandomInRange (g (j + 2)) (g (j + 3)) 45 85 0.1
     vibration_level := getRandomInRange (g (j + 4)) (g (j + 5)) 0.5 8 0.1
     power_consumption := getRandomInRange (g (j + 6)) (g (j + 7)) 800 3500 0.1
     runtime_hours := getRandomInRange (g (j + 8)) (g (j + 9)) 1000 8760 0.1
     last_maintenance := nowMs - g (j + 10) * (30 * 24 * 60 * 60 * 1000)
     location := "Plant Section " ++ toString (⌊g (j + 11) * 3⌋ + 1)
     alerts := al.1.map (fun a => a.message) }, al.2)

/-- The `equipment.map` fold of `generateEquipmentStatus`, threading the draw
position through the eight units. -/
def generateEquipmentAux {α : Type} [LinearOrderedField α] [FloorRing α]
    (uuid : String) (nowMs : α) (g : ℕ → α) :
    List (String × String) → ℕ → List (EquipmentStatus α) × ℕ
  | [], i => ([], i)
  | u :: rest, i =>
    let e := generateEquipmentUnit uuid nowMs g i u.1 u.2
    let es := generateEquipmentAux uuid nowMs g rest e.2
    (e.1 :: es.1, es.2)

/-- `CementPlantSimulator.generateEquipmentStatus()`. -/
def generateEquipmentStatus {α : Type} [LinearOrderedField α] [FloorRing α]
    (uuid : String) (nowMs : α) (g : ℕ → α) (i : ℕ) :
    List (EquipmentStatus α) × ℕ :=
  generateEquipmentAux uuid nowMs g equipmentUnits i

/-- Each generated unit keeps the id and name it was built from, and its
status is one of `running`, `maintenance`, `error`. -/
theorem generateEquipmentUnit_fields {α : Type} [LinearOrderedField α] [FloorRing α]
    (uuid : String) (nowMs : α) (g : ℕ → α) (i : ℕ) (eqId eqName : String) :
    (generateEquipmentUnit uuid nowMs g i eqId eqName).1.equipment_id = eqId ∧
    ((generateEquipmentUnit uuid nowMs g i eqId eqName).1.status = EquipStatusKind.running ∨
     (generateEquipmentUnit uuid nowMs g i eqId eqName).1.status = EquipStatusKind.maintenance ∨
     (generateEquipmentUnit uuid nowMs g i eqId eqName).1.status = EquipStatusKind.error) := by
  refine ⟨rfl, ?_⟩
  simp only [generateEquipmentUnit]
  split_ifs <;> simp

/-- Ids of the generated list are exactly the configured unit ids, in order. -/
theorem generateEquipmentAux_map_id {α : Type} [LinearOrderedField α] [FloorRing α]
    (uuid : String) (nowMs : α) (g : ℕ → α) :
    ∀ (units : List (String × String)) (i : ℕ),
      ((generateEquipmentAux uuid nowMs g units i).1).map (fun e => e.equipment_id) =
        units.map Prod.fst
  | [], _ => by simp [generateEquipmentAux]
  | u :: rest, i => by
    simp only [generateEquipmentAux, List.map_cons]
    rw [(generateEquipmentUnit_fields uuid nowMs g i u.1 u.2).1,
      generateEquipmentAux_map_id uuid nowMs g rest _]

/-- Every status in the generated list is `running`, `maintenance` or
`error`. -/
theorem generateEquipmentAux_status {α : Type} [LinearOrderedField α] [FloorRing α]
    (uuid : String) (nowMs : α) (g : ℕ → α) :
    ∀ (units : List (String × String)) (i : ℕ),
      ∀ e ∈ (generateEquipmentAux uuid nowMs g units i).1,
        e.status = EquipStatusKind.running ∨ e.status = EquipStatusKind.maintenance ∨
          e.status = EquipStatusKind.error
  | [], _ => by simp [generateEquipmentAux]
  | u :: rest, i => by
    intro e he
    simp only [generateEquipmentAux, List.mem_cons] at he
    rcases he with he | he
    · rw [he]
      exact (generateEquipmentUnit_fields uuid nowMs g i u.1 u.2).2
    · exact generateEquipmentAux_status uuid nowMs g rest _ e he

/-- **C9.** Every call to `generateEquipmentStatus` returns exactly 8
equipment records carrying the fixed ids `KILN_01, RAW_MILL_01,
CEMENT_MILL_01, PREHEATER_01, COOLER_01, CRUSHER_01, SEPARATOR_01, FAN_01`
in that order, and each record's status is `running`, `maintenance` or
`error` — the `stopped` status declared in the `EquipmentStatus` type is
never produced. -/
theorem c9_equipmentStatus_fixed (uuid : String) (nowMs : ℚ) (g : ℕ → ℚ) (i : ℕ) :
    (generateEquipmentStatus uuid nowMs g i).1.length = 8 ∧
    ((generateEquipmentStatus uuid nowMs g i).1).map (fun e => e.equipment_id) =
      ["KILN_01", "RAW_MILL_01", "CEMENT_MILL_01", "PREHEATER_01", "COOLER_01",
       "CRUSHER_01", "SEPARATOR_01", "FAN_01"] ∧
    ∀ e ∈ (generateEquipmentStatus uuid nowMs g i).1,
      (e.status = EquipStatusKind.running ∨ e.status = EquipStatusKind.maintenance ∨
        e.status = EquipStatusKind.error) ∧ e.status ≠ EquipStatusKind.stopped := by
  have hmap := generateEquipmentAux_map_id uuid nowMs g equipmentUnits i
  refine ⟨?_, ?_, ?_⟩
  · have := congrArg List.length hmap
    simpa [equipmentUnits, generateEquipmentStatus] using this
  · simpa [equipmentUnits] using hmap
  · intro e he
    have hst := generateEquipmentAux_status uuid nowMs g equipmentUnits i e he
    refine ⟨hst, ?_⟩
    rcases hst with h | h | h <;> simp [h]

/-! ## Gemini service (`ai/geminiService.ts`)

The prompt building (`buildSystemPrompt`, `buildContextualPrompt`) only
shapes the outbound request; the value returned to the caller depends on the
outcome of the `fetch` to the Gemini endpoint and on the structure of the
returned body, which the `FetchOutcome` argument captures. -/

/-- One element of `candidates[i].content.parts`; `text` is `none` when the
JSON field is absent (`undefined`). -/
structure GeminiPart where
  text : Option String
deriving DecidableEq, Repr

/-- `candidates[i].content`. -/
structure GeminiContent where
  parts : Option (List GeminiPart)
deriving DecidableEq, Repr

/-- One element of `candidates`. -/
structure GeminiCandidate where
  content : Option GeminiContent
deriving DecidableEq, Repr

/-- The parsed JSON body of a Gemini API response. -/
structure GeminiAPIBody where
  candidates : Option (List GeminiCandidate)
deriving DecidableEq, Repr

/-- Outcome of the `fetch` in `callGeminiAPI`: the promise rejects, the
response is not ok (non-2xx status), or it is ok with a parsed body. -/
inductive FetchOutcome where
  | netError
  | httpError (status : Nat)
  | ok (body : GeminiAPIBody)

/-- Result shape `GeminiResponse` of `geminiService.ts`; `recommendations` is
optional there, `none` models its absence. -/
structure GeminiResponse where
  response : String
  confidence : ℚ
  recommendations : Option (List String)
  context_used : List String
deriving DecidableEq, Repr

/-- The canned text `callGeminiAPI` substitutes when the API call fails
(transcribed verbatim from the template literal in its `catch` block). -/
def connectionFallbackText : String :=
  "I apologize, but I'm having trouble connecting to the AI service right now. \n" ++
  "\n" ++
  "However, based on your question, I can provide general guidance:\n" ++
  "\n" ++
  "For cement plant operations, the key areas to focus on are:\n" ++
  "- **Process Control**: Maintaining stable kiln temperature, consistent raw meal feed, and optimal mill operations\n" ++
  "- **Quality Assurance**: Regular testing of cement properties, monitoring fineness and strength development\n" ++
  "- **Energy Efficiency**: Optimizing fuel consumption, utilizing alternative fuels, and reducing specific energy consumption\n" ++
  "- **Environmental Compliance**: Managing emissions, dust control, and sustainable practices\n" ++
  "\n" ++
  "Please try your question again, or feel free to ask more specific questions about:\n" ++
  "- Kiln operation and temperature control\n" ++
  "- Quality parameters and testing\n" ++
  "- Energy optimization strategies\n" ++
  "- Environmental compliance\n" ++
  "- Maintenance and reliability\n" ++
  "\n" ++
  "I'll do my best to provide detailed, context-aware recommendations based on your current plant data."

/-- The body wrapping `connectionFallbackText` that `callGeminiAPI` returns
from its `catch` block. -/
def connectionFallbackBody : GeminiAPIBody :=
  { candidates := some [{ content := some { parts := some [{ text := some connectionFallbackText }] } }] }

/-- `GeminiService.callGeminiAPI(prompt)`.  Everything thrown inside the `try`
(rejected fetch, `!response.ok`, and the structure check
`!data.candidates || !data.candidates[0] || !data.candidates[0].content`)
is caught locally and replaced by `connectionFallbackBody`; the function
never propagates an error. -/
def callGeminiAPI (outcome : FetchOutcome) : GeminiAPIBody :=
  match outcome with
  | FetchOutcome.netError => connectionFallbackBody
  | FetchOutcome.httpError _ => connectionFallbackBody
  | FetchOutcome.ok body =>
    match body.candidates with
    | some (c :: _) =>
      match c.content with
      | some _ => body
      | none => connectionFallbackBody
    | _ => connectionFallbackBody

/-- JavaScript word character (`\w` with the default flags):
ASCII letter, digit or underscore. -/
def isWordChar (c : Char) : Bool :=
  c.isAlphanum || c = '_'

/-- `line.replace(/^\W+/, '')`: drop the leading run of non-word
characters. -/
def stripLeadingNonWord (s : String) : String :=
  ⟨s.data.dropWhile (fun c => !isWordChar c)⟩

/-- Substring test on character lists (the semantics of
JavaScript `String.prototype.includes`). -/
def hasSubList (needle : List Char) : List Char → Bool
  | [] => needle.isEmpty
  | c :: rest => needle.isPrefixOf (c :: rest) || hasSubList needle rest

/-- `haystack.includes(needle)`. -/
def includesStr (haystack needle : String) : Bool :=
  hasSubList needle.data haystack.data

/-- The keyword disjunction of `extractRecommendations`:
`line.includes('Reduce') || ... || line.includes('Check')`. -/
def lineHasKeyword (line : String) : Bool :=
  includesStr line "Reduce" || includesStr line "Increase" || includesStr line "Optimize" ||
    includesStr line "Adjust" || includesStr line "Monitor" || includesStr line "Check"

/-- `GeminiService.extractRecommendations(text)`: over the `\n`-split lines,
keep keyword lines whose cleaned form (leading non-word run removed, then
trimmed) is longer than 10 characters, and return the first 5
(`slice(0, 5)`). -/
def extractRecommendations (text : String) : List String :=
  ((text.splitOn "\n").filterMap (fun line =>
    if lineHasKeyword line then
      let cleaned := (stripLeadingNonWord line).trim
      if cleaned.length > 10 then some cleaned else none
    else none)).take 5

/-- `GeminiService.parseGeminiResponse(response)`: reads
`candidates[0].content.parts[0].text`; any missing piece (or missing text,
which would also make `extractRecommendations` throw) becomes the thrown
`Failed to parse Gemini response`, modelled as `Except.error`. -/
def parseGeminiResponse (body : GeminiAPIBody) : Except Unit GeminiResponse :=
  match body.candidates with
  | some (c :: _) =>
    match c.content with
    | some content =>
      match content.parts with
      | some (p :: _) =>
        match p.text with
        | some text =>
          Except.ok
            { response := text
              confidence := 0.85
              recommendations := some (extractRecommendations text)
              context_used := ["plant_data", "process_parameters", "environmental_metrics"] }
        | none => Except.error ()
      | _ => Except.error ()
    | none => Except.error ()
  | _ => Except.error ()

/-- The deterministic fallback of `askGemini`'s own `catch` block. -/
def askGeminiErrorResponse : GeminiResponse :=
  { response := "I apologize, but I am currently unable to access the AI system. Please try again later."
    confidence := 0
    recommendations := none
    context_used := ["error"] }

/-- `GeminiService.askGemini(question, dashboardData?)`: builds the prompt
(irrelevant to the returned value), calls `callGeminiAPI` — which cannot
reject — and parses; only a parse failure reaches the surrounding `catch`. -/
def askGemini (outcome : FetchOutcome) : GeminiResponse :=
  match parseGeminiResponse (callGeminiAPI outcome) with
  | Except.ok r => r
  | Except.error _ => askGeminiErrorResponse

/-- **C3, counterexample.**  A chat request whose AI backend call fails (the
fetch rejects; no snapshot cached, which only affects the prompt) does *not*
produce the confidence-0 / `["error"]` fallback: `callGeminiAPI` swallows the
failure and substitutes the canned connection-trouble body, which parses with
confidence 0.85. -/
theorem c3_fallback_counterexample :
    ¬ ((askGemini FetchOutcome.netError).confidence = 0 ∧
        (askGemini FetchOutcome.netError).context_used = ["error"]) := by
  intro h
  have hc : (askGemini FetchOutcome.netError).confidence = 0.85 := rfl
  rw [hc] at h
  exact absurd h.1 (by norm_num)

/-- A structurally half-valid body: `candidates[0].content` exists, so the
validation inside `callGeminiAPI` passes, but `content.parts` is absent, so
`parseGeminiResponse` throws. -/
def malformedBody : GeminiAPIBody :=
  { candidates := some [{ content := some { parts := none } }] }

/-- **C3, amended.**  When the AI backend call fails (rejected fetch or
non-ok HTTP status), `askGemini` returns the canned connection-trouble text
with confidence 0.85 and `context_used =
["plant_data", "process_parameters", "environmental_metrics"]`; the
deterministic confidence-0 / `["error"]` fallback is produced by `askGemini`'s
own catch only when parsing fails, e.g. on a body whose first candidate has
`content` but no `parts`. -/
theorem c3_failure_behaviour (o : FetchOutcome)
    (h : o = FetchOutcome.netError ∨ ∃ st, o = FetchOutcome.httpError st) :
    (askGemini o).response = connectionFallbackText ∧
    (askGemini o).confidence = 0.85 ∧
    (askGemini o).context_used = ["plant_data", "process_parameters", "environmental_metrics"] ∧
    askGemini (FetchOutcome.ok malformedBody) = askGeminiErrorResponse := by
  rcases h with rfl | ⟨st, rfl⟩ <;> exact ⟨rfl, rfl, rfl, rfl⟩

/-- Witness for C3 (amended) at the rejected-fetch outcome. -/
theorem c3_failure_behaviour_witness :
    (askGemini FetchOutcome.netError).response = connectionFallbackText ∧
    (askGemini FetchOutcome.netError).confidence = 0.85 ∧
    (askGemini FetchOutcome.netError).context_used =
      ["plant_data", "process_parameters", "environmental_metrics"] ∧
    askGemini (FetchOutcome.ok malformedBody) = askGeminiErrorResponse :=
  c3_failure_behaviour FetchOutcome.netError (Or.inl rfl)

/-- Every recommendation list is cut to at most five entries. -/
theorem extractRecommendations_length_le (text : String) :
    (extractRecommendations text).length ≤ 5 := by
  unfold extractRecommendations
  exact List.length_take_le 5 _

/-- Every produced recommendation is the cleaned form of some line of the
text and is longer than 10 characters. -/
theorem extractRecommendations_mem (text : String) :
    ∀ r ∈ extractRecommendations text,
      r.length > 10 ∧ ∃ line ∈ text.splitOn "\n", r = (stripLeadingNonWord line).trim := by
  intro r hr
  unfold extractRecommendations at hr
  have hr' := List.mem_of_mem_take hr
  rcases List.mem_filterMap.mp hr' with ⟨line, hline, hf⟩
  simp only at hf
  split_ifs at hf with h1 h2
  · rcases Option.some_injective _ hf with rfl
    exact ⟨h2, line, hline, rfl⟩

/-- **C10.**  Every `GeminiResponse` built from a successfully parsed AI
reply has confidence exactly 0.85 and carries a recommendations list of at
most 5 entries, each entry a line of the reply text, stripped of its leading
non-word characters and trimmed, of length greater than 10. -/
theorem c10_parsed_response_shape (body : GeminiAPIBody) (r : GeminiResponse)
    (h : parseGeminiResponse body = Except.ok r) :
    r.confidence = 0.85 ∧
    r.recommendations = some (extractRecommendations r.response) ∧
    (extractRecommendations r.response).length ≤ 5 ∧
    ∀ rec ∈ extractRecommendations r.response,
      rec.length > 10 ∧
        ∃ line ∈ r.response.splitOn "\n", rec = (stripLeadingNonWord line).trim := by
  unfold parseGeminiResponse at h
  repeat' split at h
  all_goals cases h
  exact ⟨rfl, rfl, extractRecommendations_length_le _, extractRecommendations_mem _⟩

/-- Concrete reply used to witness C10. -/
def c10SampleText : String :=
  "Summary line\n1. Reduce kiln temperature by ten degrees\nshort Check\n"

/-- The body carrying `c10SampleText`. -/
def c10SampleBody : GeminiAPIBody :=
  { candidates := some [{ content := some { parts := some [{ text := some c10SampleText }] } }] }

/-- The response `parseGeminiResponse` builds from `c10SampleBody`. -/
def c10SampleResponse : GeminiResponse :=
  { response := c10SampleText
    confidence := 0.85
    recommendations := some (extractRecommendations c10SampleText)
    context_used := ["plant_data", "process_parameters", "environmental_metrics"] }

/-- Witness for C10 at a concrete parsed body. -/
theorem c10_parsed_response_shape_witness :
    c10SampleResponse.confidence = 0.85 ∧
    c10SampleResponse.recommendations = some (extractRecommendations c10SampleResponse.response) ∧
    (extractRecommendations c10SampleResponse.response).length ≤ 5 ∧
    ∀ rec ∈ extractRecommendations c10SampleResponse.response,
      rec.length > 10 ∧
        ∃ line ∈ c10SampleResponse.response.splitOn "\n",
          rec = (stripLeadingNonWord line).trim :=
  c10_parsed_response_shape c10SampleBody c10SampleResponse rfl

/-! ## Remaining snapshot records (`data/models.ts`) and their generators -/

/-- `SensorReading` (`data/models.ts`); the `timestamp: Date` field is
omitted, `sensor_type` is kept as the literal string of the union. -/
structure SensorReading where
  sensor_id : String
  value : ℝ
  unit : String
  location : String
  sensor_type : String

/-- The `chemical_composition` sub-record of `QualityMetrics`. -/
structure ChemicalComposition where
  c3s : ℝ
  c2s : ℝ
  c3a : ℝ
  c4af : ℝ
  so3 : ℝ
  free_lime : ℝ

/-- `QualityMetrics` (`data/models.ts`). -/
structure QualityMetrics where
  sample_id : String
  blaine_fineness : ℝ
  compressive_strength_3d : ℝ
  compressive_strength_28d : ℝ
  setting_time_initial : ℝ
  setting_time_final : ℝ
  quality_score : ℝ
  defect_count : ℤ
  consistency : ℝ
  chemical_composition : ChemicalComposition

/-- `EnvironmentalData` (`data/models.ts`). -/
structure EnvironmentalData where
  co2_emissions : ℝ
  nox_emissions : ℝ
  so2_emissions : ℝ
  dust_emissions : ℝ
  energy_consumption_specific : ℝ
  alternative_fuel_substitution : ℝ
  waste_heat_recovery : ℝ
  water_consumption : ℝ

/-- `PlantOverview` (`data/models.ts`). -/
structure PlantOverview where
  overall_efficiency : ℝ
  production_rate_current : ℝ
  production_rate_target : ℝ
  energy_consumption_current : ℝ
  energy_consumption_target : ℝ
  quality_score_avg : ℝ
  active_alerts_count : ℕ
  equipment_running_count : ℕ
  equipment_total_count : ℕ
  environmental_compliance : Bool

/-- `DashboardData` (`data/models.ts`).  `ai_recommendations` is always the
empty list in `index.ts`, so its `AIRecommendation` element type is
represented by `String` without loss. -/
structure DashboardData where
  plant_overview : PlantOverview
  recent_sensors : List SensorReading
  current_parameters : ProcessParameters
  recent_quality : List QualityMetrics
  equipment_status : List (EquipmentStatus ℝ)
  active_alerts : List (Alert ℝ)
  ai_recommendations : List String
  environmental_data : EnvironmentalData

/-- `CementPlantSimulator.generateSensorReadings()`: the fixed eight sensors,
cyclical values taking no draw, `getRandomInRange` two each, threaded from
position `i` in push order. -/
noncomputable def generateSensorReadings (cap t : ℝ) (g : ℕ → ℝ) (i : ℕ) :
    List SensorReading × ℕ :=
  ([{ sensor_id := "KILN_TEMP_01", value := generateCyclicalValue 1450 50 4 0 t,
      unit := "°C", location := "Kiln Burning Zone", sensor_type := "temperature" },
    { sensor_id := "KILN_PRESSURE_01",
      value := getRandomInRange (g i) (g (i + 1)) (-15) (-5) 0.1,
      unit := "kPa", location := "Kiln Inlet", sensor_type := "pressure" },
    { sensor_id := "RAW_MILL_POWER_01",
      value := generateCyclicalValue 2800 200 6 (Real.pi / 4) t,
      unit := "kW", location := "Raw Mill", sensor_type := "power" },
    { sensor_id := "CEMENT_MILL_POWER_01",
      value := generateCyclicalValue 3200 300 8 (Real.pi / 2) t,
      unit := "kW", location := "Cement Mill", sensor_type := "power" },
    { sensor_id := "PRODUCTION_FLOW_01",
      value := generateCyclicalValue (cap * 0.85) (cap * 0.1) 12 0 t,
      unit := "TPH", location := "Cement Silo", sensor_type := "flow" },
    { sensor_id := "EXHAUST_TEMP_01",
      value := getRandomInRange (g (i + 2)) (g (i + 3)) 320 380 0.1,
      unit := "°C", location := "Preheater Exit", sensor_type := "temperature" },
    { sensor_id := "DUST_LEVEL_01",
      value := getRandomInRange (g (i + 4)) (g (i + 5)) 15 25 0.1,
      unit := "mg/Nm³", location := "Stack", sensor_type := "flow" },
    { sensor_id := "FINENESS_01",
      value := getRandomInRange (g (i + 6)) (g (i + 7)) 340 380 0.1,
      unit := "m²/kg", location := "Cement Mill Exit", sensor_type := "flow" }], i + 8)

/-- `CementPlantSimulator.generateQualityMetrics()`: `qualityBase` first,
then the object-literal fields in order (28 draws in total). -/
noncomputable def generateQualityMetrics (nowMs : ℤ) (g : ℕ → ℝ) (i : ℕ) :
    QualityMetrics × ℕ :=
  let qualityBase := 75 + g i * 20
  ({ sample_id := "QS_" ++ toString nowMs ++ "_" ++ toString ⌊g (i + 1) * 1000⌋
     blaine_fineness := getRandomInRange (g (i + 2)) (g (i + 3)) 340 380 0.1
     compressive_strength_3d := getRandomInRange (g (i + 4)) (g (i + 5)) 18 25 0.1
     compressive_strength_28d := getRandomInRange (g (i + 6)) (g (i + 7)) 42 52 0.1
     setting_time_initial := getRandomInRange (g (i + 8)) (g (i + 9)) 45 90 0.1
     setting_time_final := getRandomInRange (g (i + 10)) (g (i + 11)) 180 300 0.1
     quality_score := qualityBase
     defect_count := ⌊getRandomInRange (g (i + 12)) (g (i + 13)) 0 5 0.1⌋
     consistency := getRandomInRange (g (i + 14)) (g (i + 15)) 95 99.5 0.1
     chemical_composition :=
       { c3s := getRandomInRange (g (i + 16)) (g (i + 17)) 50 65 0.1
         c2s := getRandomInRange (g (i + 18)) (g (i + 19)) 15 25 0.1
         c3a := getRandomInRange (g (i + 20)) (g (i + 21)) 8 12 0.1
         c4af := getRandomInRange (g (i + 22)) (g (i + 23)) 8 12 0.1
         so3 := getRandomInRange (g (i + 24)) (g (i + 25)) 2.5 3.5 0.1
         free_lime := getRandomInRange (g (i + 26)) (g (i + 27)) 0.5 1.5 0.1 } }, i + 28)

/-- `CementPlantSimulator.generateEnvironmentalData()`.  `lastP` is the
retained `this.lastParameters`; the JavaScript
`this.lastParameters?.production_rate || this.config.plant_capacity * 0.8`
falls back both when no parameters were retained and when the retained
production rate is `0` (falsy). -/
noncomputable def generateEnvironmentalData (cap : ℝ) (lastP : Option ProcessParameters)
    (g : ℕ → ℝ) (i : ℕ) : EnvironmentalData × ℕ :=
  let productionRate :=
    match lastP with
    | some p => if p.production_rate = 0 then cap * 0.8 else p.production_rate
    | none => cap * 0.8
  ({ co2_emissions := getRandomInRange (g i) (g (i + 1)) 820 950 0.1
     nox_emissions := getRandomInRange (g (i + 2)) (g (i + 3)) 400 800 0.1
     so2_emissions := getRandomInRange (g (i + 4)) (g (i + 5)) 50 200 0.1
     dust_emissions := getRandomInRange (g (i + 6)) (g (i + 7)) 15 30 0.1
     energy_consumption_specific := getRandomInRange (g (i + 8)) (g (i + 9)) 85 105 0.1
     alternative_fuel_substitution := getRandomInRange (g (i + 10)) (g (i + 11)) 15 35 0.1
     waste_heat_recovery := productionRate * getRandomInRange (g (i + 12)) (g (i + 13)) 20 35 0.1
     water_consumption := getRandomInRange (g (i + 14)) (g (i + 15)) 200 350 0.1 }, i + 16)

/-- `CementPlantSimulator.generatePlantOverview()`: draws a fresh equipment
sample first (the documented non-idempotence), aggregates running count and
alert count from it, then fills the remaining fields in literal order. -/
noncomputable def generatePlantOverview (cap : ℝ) (lastP : Option ProcessParameters)
    (uuid : String) (nowMs : ℤ) (g : ℕ → ℝ) (i : ℕ) : PlantOverview × ℕ :=
  let eq := generateEquipmentStatus uuid (nowMs : ℝ) g i
  let j := eq.2
  let runningEquipment := (eq.1.filter (fun e => e.status == EquipStatusKind.running)).length
  let activeAlerts := eq.1.foldl (fun total e => total + e.alerts.length) 0
  ({ overall_efficiency := getRandomInRange (g j) (g (j + 1)) 82 94 0.1
     production_rate_current :=
       match lastP with
       | some p => if p.production_rate = 0 then cap * 0.85 else p.production_rate
       | none => cap * 0.85
     production_rate_target := cap
     energy_consumption_current := getRandomInRange (g (j + 2)) (g (j + 3)) 85 105 0.1
     energy_consumption_target := 90
     quality_score_avg := getRandomInRange (g (j + 4)) (g (j + 5)) 88 96 0.1
     active_alerts_count := activeAlerts
     equipment_running_count := runningEquipment
     equipment_total_count := eq.1.length
     environmental_compliance := decide (g (j + 6) > 0.1) }, j + 7)

/-! ## Server state and endpoints (`index.ts`) -/

/-- One record of the fixed real cement plant data of
`loadSampleRealData()`. -/
structure RealRecord where
  timestamp : String
  kiln_temperature : ℝ
  kiln_pressure : ℝ
  raw_mill_power : ℝ
  cement_mill_power : ℝ
  production_rate : ℝ
  compressive_strength : ℝ
  fineness : ℝ
  co2_emissions : ℝ
  energy_consumption : ℝ

/-- The ten fixed records returned by `loadSampleRealData()`. -/
noncomputable def sampleRealData : List RealRecord :=
  [{ timestamp := "2024-01-01T00:00:00Z", kiln_temperature := 1450.5, kiln_pressure := -12.3,
     raw_mill_power := 2850, cement_mill_power := 3150, production_rate := 1850,
     compressive_strength := 42.5, fineness := 365, co2_emissions := 875, energy_consumption := 95.2 },
   { timestamp := "2024-01-01T00:05:00Z", kiln_temperature := 1452.1, kiln_pressure := -11.8,
     raw_mill_power := 2890, cement_mill_power := 3180, production_rate := 1870,
     compressive_strength := 43.1, fineness := 358, co2_emissions := 878, energy_consumption := 94.8 },
   { timestamp := "2024-01-01T00:10:00Z", kiln_temperature := 1448.7, kiln_pressure := -13.1,
     raw_mill_power := 2820, cement_mill_power := 3120, production_rate := 1820,
     compressive_strength := 41.9, fineness := 372, co2_emissions := 882, energy_consumption := 96.1 },
   { timestamp := "2024-01-01T00:15:00Z", kiln_temperature := 1455.3, kiln_pressure := -10.9,
     raw_mill_power := 2910, cement_mill_power := 3200, production_rate := 1895,
     compressive_strength := 44.2, fineness := 351, co2_emissions := 869, energy_consumption := 93.7 },
   { timestamp := "2024-01-01T00:20:00Z", kiln_temperature := 1451.8, kiln_pressure := -12.7,
     raw_mill_power := 2875, cement_mill_power := 3165, production_rate := 1860,
     compressive_strength := 42.8, fineness := 363, co2_emissions := 873, energy_consumption := 95.5 },
   { timestamp := "2024-01-01T00:25:00Z", kiln_temperature := 1453.4, kiln_pressure := -11.5,
     raw_mill_power := 2895, cement_mill_power := 3185, production_rate := 1885,
     compressive_strength := 43.5, fineness := 356, co2_emissions := 871, energy_consumption := 94.3 },
   { timestamp := "2024-01-01T00:30:00Z", kiln_temperature := 1449.9, kiln_pressure := -13.4,
     raw_mill_power := 2835, cement_mill_power := 3135, production_rate := 1835,
     compressive_strength := 42.1, fineness := 369, co2_emissions := 885, energy_consumption := 96.8 },
   { timestamp := "2024-01-01T00:35:00Z", kiln_temperature := 1456.2, kiln_pressure := -10.6,
     raw_mill_power := 2925, cement_mill_power := 3210, production_rate := 1905,
     compressive_strength := 44.8, fineness := 348, co2_emissions := 865, energy_consumption := 93.2 },
   { timestamp := "2024-01-01T00:40:00Z", kiln_temperature := 1452.7, kiln_pressure := -12.1,
     raw_mill_power := 2885, cement_mill_power := 3175, production_rate := 1875,
     compressive_strength := 43.3, fineness := 361, co2_emissions := 876, energy_consumption := 95.1 },
   { timestamp := "2024-01-01T00:45:00Z", kiln_temperature := 1450.3, kiln_pressure := -12.9,
     raw_mill_power := 2860, cement_mill_power := 3155, production_rate := 1850,
     compressive_strength := 42.6, fineness := 367, co2_emissions := 880, energy_consumption := 95.9 }]

/-- Default record for out-of-range list access (never reached: the real
branch guards on a non-empty sequence). -/
noncomputable def defaultRealRecord : RealRecord :=
  { timestamp := "", kiln_temperature := 0, kiln_pressure := 0, raw_mill_power := 0,
    cement_mill_power := 0, production_rate := 0, compressive_strength := 0, fineness := 0,
    co2_emissions := 0, energy_consumption := 0 }

/-- `generateDashboardFromRealData(realData)` (`index.ts`): the deterministic
mapping of one real record into a full snapshot; only the
`simulator.generateEquipmentStatus()` call consumes draws. -/
noncomputable def generateDashboardFromRealData (r : RealRecord) (nowMs : ℤ)
    (uuid : String) (g : ℕ → ℝ) : DashboardData :=
  { plant_overview :=
      { overall_efficiency := min 95 (100 - (r.energy_consumption - 90) * 2)
        production_rate_current := r.production_rate
        production_rate_target := 2000
        energy_consumption_current := r.energy_consumption
        energy_consumption_target := 90
        quality_score_avg := min 95 (r.compressive_strength * 2)
        active_alerts_count := 2
        equipment_running_count := 7
        equipment_total_count := 8
        environmental_compliance := true }
    recent_sensors :=
      [{ sensor_id := "KILN_TEMP_01", value := r.kiln_temperature, unit := "°C",
         location := "Kiln Burning Zone", sensor_type := "temperature" },
       { sensor_id := "KILN_PRESSURE_01", value := r.kiln_pressure, unit := "kPa",
         location := "Kiln Inlet", sensor_type := "pressure" },
       { sensor_id := "RAW_MILL_POWER_01", value := r.raw_mill_power, unit := "kW",
         location := "Raw Mill", sensor_type := "power" },
       { sensor_id := "CEMENT_MILL_POWER_01", value := r.cement_mill_power, unit := "kW",
         location := "Cement Mill", sensor_type := "power" },
       { sensor_id := "PRODUCTION_FLOW_01", value := r.production_rate, unit := "TPH",
         location := "Cement Silo", sensor_type := "flow" },
       { sensor_id := "FINENESS_01", value := r.fineness, unit := "m²/kg",
         location := "Quality Control Lab", sensor_type := "flow" }]
    current_parameters :=
      { kiln_temperature := r.kiln_temperature
        kiln_pressure := r.kiln_pressure
        raw_mill_power := r.raw_mill_power
        cement_mill_power := r.cement_mill_power
        production_rate := r.production_rate
        energy_consumption := r.energy_consumption
        alternative_fuel_rate := 25
        raw_meal_flow := r.production_rate * 1.55
        cement_fineness := r.fineness
        clinker_temperature := r.kiln_temperature - 300
        exhaust_fan_speed := 500
        preheater_temperature := r.kiln_temperature - 1100 }
    recent_quality :=
      [{ sample_id := "REAL_" ++ toString nowMs
         blaine_fineness := r.fineness
         compressive_strength_3d := r.compressive_strength * 0.5
         compressive_strength_28d := r.compressive_strength
         setting_time_initial := 75
         setting_time_final := 270
         quality_score := min 95 (r.compressive_strength * 2)
         defect_count := 1
         consistency := 97.5
         chemical_composition :=
           { c3s := 60, c2s := 20, c3a := 10, c4af := 10, so3 := 3.0, free_lime := 1.0 } }]
    equipment_status := (generateEquipmentStatus uuid (nowMs : ℝ) g 0).1
    active_alerts := []
    ai_recommendations := []
    environmental_data :=
      { co2_emissions := r.co2_emissions
        nox_emissions := 650
        so2_emissions := 120
        dust_emissions := 25
        energy_consumption_specific := r.energy_consumption
        alternative_fuel_substitution := 25
        waste_heat_recovery := r.production_rate * 25
        water_consumption := 300 } }

/-- The module-level mutable state of `index.ts`:
`latestDashboardData`, `realDataEnabled`, `realDataSource`, `realDataIndex`,
plus the simulator's retained `lastParameters`. -/
structure ServerState where
  latestDashboardData : Option DashboardData
  realDataEnabled : Bool
  realDataSource : List RealRecord
  realDataIndex : ℕ
  lastParameters : Option ProcessParameters

/-- The state at process start. -/
def initialServerState : ServerState :=
  { latestDashboardData := none, realDataEnabled := false, realDataSource := [],
    realDataIndex := 0, lastParameters := none }

/-- The simulated-snapshot object literal shared by `broadcastData` and the
`/api/dashboard/data` fallback; fields (and their draws) evaluate top to
bottom, so `environmental_data` sees the `lastParameters` that
`generateProcessParameters` just stored, while `plant_overview` still sees
the previous ones.  Returns the snapshot and the newly stored parameters. -/
noncomputable def generateSimulatedDashboard (cap t : ℝ) (nowMs : ℤ) (uuid : String)
    (lastP : Option ProcessParameters) (g : ℕ → ℝ) : DashboardData × ProcessParameters :=
  let ov := generatePlantOverview cap lastP uuid nowMs g 0
  let sens := generateSensorReadings cap t g ov.2
  let params := generateProcessParameters cap t (fun n => g (sens.2 + n))
  let qual := generateQualityMetrics nowMs g (sens.2 + 16)
  let eq := generateEquipmentStatus uuid (nowMs : ℝ) g qual.2
  let env := generateEnvironmentalData cap (some params) g eq.2
  ({ plant_overview := ov.1
     recent_sensors := sens.1
     current_parameters := params
     recent_quality := [qual.1]
     equipment_status := eq.1
     active_alerts := []
     ai_recommendations := []
     environmental_data := env.1 }, params)

/-- `broadcastData` (`index.ts`): in REAL mode with a non-empty sequence, use
`realDataSource[realDataIndex % realDataSource.length]` and increment the
index; otherwise synthesize a simulated snapshot (updating the simulator's
`lastParameters`).  Either way the snapshot is stored as
`latestDashboardData` and emitted. -/
noncomputable def broadcastData (cap t : ℝ) (nowMs : ℤ) (uuid : String) (g : ℕ → ℝ)
    (s : ServerState) : ServerState × DashboardData :=
  if s.realDataEnabled = true ∧ 0 < s.realDataSource.length then
    let currentRealData :=
      s.realDataSource.getD (s.realDataIndex % s.realDataSource.length) defaultRealRecord
    let d := generateDashboardFromRealData currentRealData nowMs uuid g
    ({ s with latestDashboardData := some d, realDataIndex := s.realDataIndex + 1 }, d)
  else
    let sim := generateSimulatedDashboard cap t nowMs uuid s.lastParameters g
    ({ s with latestDashboardData := some sim.1, lastParameters := some sim.2 }, sim.1)

/-- `POST /api/real-data/toggle`: flips `realDataEnabled` unconditionally and
touches nothing else. -/
def toggleRealData (s : ServerState) : ServerState :=
  { s with realDataEnabled := !s.realDataEnabled }

/-- `POST /api/real-data/load`: for `dataType = 'sample'` it stores the fixed
sequence, *enables real-data mode* and resets the index, answering success;
any other `dataType` answers a 400 and leaves the state unchanged.  The
returned flag is `true` exactly on the success path. -/
noncomputable def loadRealData (s : ServerState) (dataType : String) : ServerState × Bool :=
  if dataType = "sample" then
    ({ s with realDataSource := sampleRealData, realDataEnabled := true, realDataIndex := 0 },
      true)
  else (s, false)

/-- `GET /api/dashboard/data`: returns the cached snapshot when one exists;
otherwise synthesizes a fresh one (without caching it), which stores new
`lastParameters` in the simulator. -/
noncomputable def handleDashboardData (cap t : ℝ) (nowMs : ℤ) (uuid : String) (g : ℕ → ℝ)
    (s : ServerState) : ServerState × DashboardData :=
  match s.latestDashboardData with
  | some d => (s, d)
  | none =>
    let sim := generateSimulatedDashboard cap t nowMs uuid s.lastParameters g
    ({ s with lastParameters := some sim.2 }, sim.1)

/-- `GET /api/sensors/realtime`: synthesizes fresh sensor readings on every
request (no state change — `generateSensorReadings` retains nothing). -/
noncomputable def handleSensorsRealtime (cap t : ℝ) (g : ℕ → ℝ) (s : ServerState) :
    ServerState × List SensorReading :=
  (s, (generateSensorReadings cap t g 0).1)

/-- `GET /api/process/parameters`: synthesizes fresh process parameters on
every request, which overwrites the simulator's `lastParameters`. -/
noncomputable def handleProcessParameters (cap t : ℝ) (g : ℕ → ℝ) (s : ServerState) :
    ServerState × ProcessParameters :=
  let p := generateProcessParameters cap t g
  ({ s with lastParameters := some p }, p)

/-- The index into the real-data sequence a broadcast tick consumes from
state `s` (`realDataIndex % realDataSource.length`), `none` when the tick
falls through to the simulated branch. -/
def consumedIndex (s : ServerState) : Option ℕ :=
  if s.realDataEnabled = true ∧ 0 < s.realDataSource.length then
    some (s.realDataIndex % s.realDataSource.length)
  else none

/-- The consumed indices of `k` consecutive broadcast ticks started in state
`s`; each tick has its own elapsed time `ts`, clock `nows` and draw stream
`gs`. -/
noncomputable def consumedIndices (cap : ℝ) (ts : ℕ → ℝ) (nows : ℕ → ℤ) (uuid : String)
    (gs : ℕ → ℕ → ℝ) : ServerState → ℕ → List (Option ℕ)
  | _, 0 => []
  | s, k + 1 =>
    consumedIndex s ::
      consumedIndices cap (fun n => ts (n + 1)) (fun n => nows (n + 1)) uuid
        (fun n => gs (n + 1)) (broadcastData cap (ts 0) (nows 0) uuid (gs 0) s).1 k

/-- A broadcast tick never touches the mode flag or the loaded sequence. -/
theorem broadcastData_preserves (cap t : ℝ) (nowMs : ℤ) (uuid : String) (g : ℕ → ℝ)
    (s : ServerState) :
    (broadcastData cap t nowMs uuid g s).1.realDataEnabled = s.realDataEnabled ∧
    (broadcastData cap t nowMs uuid g s).1.realDataSource = s.realDataSource := by
  unfold broadcastData
  split <;> exact ⟨rfl, rfl⟩

/-- A broadcast tick increments the replay index exactly when it consumes a
real record. -/
theorem broadcastData_index (cap t : ℝ) (nowMs : ℤ) (uuid : String) (g : ℕ → ℝ)
    (s : ServerState) :
    (broadcastData cap t nowMs uuid g s).1.realDataIndex =
      if s.realDataEnabled = true ∧ 0 < s.realDataSource.length then s.realDataIndex + 1
      else s.realDataIndex := by
  unfold broadcastData
  split <;> rfl

/-- In REAL mode over a fixed non-empty sequence, `k` ticks consume the
indices `(realDataIndex + j) % length` for `j = 0, …, k-1`. -/
theorem consumedIndices_real (cap : ℝ) (uuid : String) :
    ∀ (k : ℕ) (ts : ℕ → ℝ) (nows : ℕ → ℤ) (gs : ℕ → ℕ → ℝ) (s : ServerState),
      s.realDataEnabled = true → 0 < s.realDataSource.length →
      consumedIndices cap ts nows uuid gs s k =
        (List.range k).map (fun j => some ((s.realDataIndex + j) % s.realDataSource.length))
  | 0, _, _, _, _, _, _ => by simp [consumedIndices]
  | k + 1, ts, nows, gs, s, hen, hlen => by
    have hpres := broadcastData_preserves cap (ts 0) (nows 0) uuid (gs 0) s
    have hidx := broadcastData_index cap (ts 0) (nows 0) uuid (gs 0) s
    rw [if_pos ⟨hen, hlen⟩] at hidx
    have IH := consumedIndices_real cap uuid k (fun n => ts (n + 1)) (fun n => nows (n + 1))
      (fun n => gs (n + 1)) (broadcastData cap (ts 0) (nows 0) uuid (gs 0) s).1
      (hpres.1.trans hen) (by rw [hpres.2]; exact hlen)
    rw [hidx, hpres.2] at IH
    simp only [consumedIndices, IH, List.range_succ_eq_map, List.map_cons, List.map_map]
    have h1 : consumedIndex s = some ((s.realDataIndex + 0) % s.realDataSource.length) := by
      simp [consumedIndex, hen, hlen]
    rw [h1]
    congr 1
    apply List.map_congr_left
    intro j _
    simp only [Function.comp]
    rw [show s.realDataIndex + 1 + j = s.realDataIndex + j.succ by omega]

/-- **C1.**  When REAL mode is active over a non-empty sequence of `N`
records, each broadcast tick emits the snapshot built from the record at
index `realDataIndex % N` and then increments the position (wrapping
cyclically); in particular, from the freshly loaded 10-record sample
sequence with position 0, 25 consecutive ticks consume indices
`[0..9, 0..9, 0..4]` in order. -/
theorem c1_broadcast_real_replay :
    (∀ (s : ServerState) (cap t : ℝ) (nowMs : ℤ) (uuid : String) (g : ℕ → ℝ),
      s.realDataEnabled = true → 0 < s.realDataSource.length →
      (broadcastData cap t nowMs uuid g s).2 =
        generateDashboardFromRealData
          (s.realDataSource.getD (s.realDataIndex % s.realDataSource.length) defaultRealRecord)
          nowMs uuid g ∧
      (broadcastData cap t nowMs uuid g s).1.realDataIndex = s.realDataIndex + 1) ∧
    ∀ (cap : ℝ) (ts : ℕ → ℝ) (nows : ℕ → ℤ) (uuid : String) (gs : ℕ → ℕ → ℝ),
      consumedIndices cap ts nows uuid gs (loadRealData initialServerState "sample").1 25 =
        [0, 1, 2, 3, 4, 5, 6, 7, 8, 9, 0, 1, 2, 3, 4, 5, 6, 7, 8, 9,
          0, 1, 2, 3, 4].map some := by
  constructor
  · intro s cap t nowMs uuid g hen hlen
    constructor
    · unfold broadcastData
      rw [if_pos ⟨hen, hlen⟩]
    · have h := broadcastData_index cap t nowMs uuid g s
      rw [if_pos ⟨hen, hlen⟩] at h
      exact h
  · intro cap ts nows uuid gs
    have hen : (loadRealData initialServerState "sample").1.realDataEnabled = true := by
      simp [loadRealData]
    have hlen : 0 < (loadRealData initialServerState "sample").1.realDataSource.length := by
      simp [loadRealData, sampleRealData]
    rw [consumedIndices_real cap uuid 25 ts nows gs _ hen hlen]
    have hN : (loadRealData initialServerState "sample").1.realDataSource.length = 10 := by
      simp [loadRealData, sampleRealData]
    have hi : (loadRealData initialServerState "sample").1.realDataIndex = 0 := by
      simp [loadRealData]
    rw [hN, hi]
    decide

/-- Witness for C1: its per-tick part applied to the freshly loaded state. -/
theorem c1_broadcast_real_replay_witness :
    (broadcastData 2000 0 0 "" (fun _ => 0) (loadRealData initialServerState "sample").1).2 =
      generateDashboardFromRealData
        ((loadRealData initialServerState "sample").1.realDataSource.getD
          ((loadRealData initialServerState "sample").1.realDataIndex %
            (loadRealData initialServerState "sample").1.realDataSource.length)
          defaultRealRecord) 0 "" (fun _ => 0) ∧
    (broadcastData 2000 0 0 "" (fun _ => 0)
        (loadRealData initialServerState "sample").1).1.realDataIndex =
      (loadRealData initialServerState "sample").1.realDataIndex + 1 :=
  c1_broadcast_real_replay.1 (loadRealData initialServerState "sample").1 2000 0 0 ""
    (fun _ => 0) (by simp [loadRealData]) (by simp [loadRealData, sampleRealData])

/-- **C2, counterexample.**  A successful sample load from the initial
(SIMULATED) state flips the mode flag: `realDataEnabled` is `true` afterwards
although it was `false` before, contradicting that a load never changes the
active mode. -/
theorem c2_load_mode_counterexample :
    (loadRealData initialServerState "sample").2 = true ∧
    (loadRealData initialServerState "sample").1.realDataEnabled ≠
      initialServerState.realDataEnabled := by
  refine ⟨by simp [loadRealData], ?_⟩
  simp [loadRealData, initialServerState]

/-- **C2, amended.**  Loading the sample sequence stores the fetched records,
resets the replay position to 0 and leaves the cached snapshot and simulator
state untouched, but it sets the mode flag to REAL (`true`) unconditionally —
so it does flip the active data-source mode whenever the server was in
SIMULATED mode. -/
theorem c2_load_behaviour (s : ServerState) :
    (loadRealData s "sample").2 = true ∧
    (loadRealData s "sample").1.realDataSource = sampleRealData ∧
    (loadRealData s "sample").1.realDataIndex = 0 ∧
    (loadRealData s "sample").1.realDataEnabled = true ∧
    (loadRealData s "sample").1.latestDashboardData = s.latestDashboardData ∧
    (loadRealData s "sample").1.lastParameters = s.lastParameters := by
  simp [loadRealData]

/-- **C4, counterexample.**  A single pull of `/api/process/parameters` from
the initial state overwrites the simulator's retained `lastParameters`
(from `none` to the freshly synthesized record), so a pull is not a pure read
of the cached snapshot. -/
theorem c4_pull_mutates_counterexample :
    (handleProcessParameters 2000 0 (fun _ => 0) initialServerState).1.lastParameters ≠
      initialServerState.lastParameters := by
  simp [handleProcessParameters, initialServerState]

/-- **C4, amended.**  `/api/dashboard/data` with a cached snapshot is a pure
read (state unchanged, cached value returned), and `/api/sensors/realtime`
leaves the state unchanged while returning freshly synthesized readings; but
`/api/process/parameters` synthesizes a fresh record on every pull and
overwrites the simulator's `lastParameters` with it (as does
`/api/dashboard/data` when no snapshot is cached yet). -/
theorem c4_pull_behaviour (cap t : ℝ) (nowMs : ℤ) (uuid : String) (g : ℕ → ℝ)
    (s : ServerState) (d : DashboardData) (h : s.latestDashboardData = some d) :
    handleDashboardData cap t nowMs uuid g s = (s, d) ∧
    (handleSensorsRealtime cap t g s).1 = s ∧
    (handleSensorsRealtime cap t g s).2 = (generateSensorReadings cap t g 0).1 ∧
    (handleProcessParameters cap t g s).1.lastParameters =
      some (generateProcessParameters cap t g) := by
  refine ⟨?_, rfl, rfl, rfl⟩
  simp [handleDashboardData, h]

/-- All-zero snapshot used to witness the cached-read case of C4. -/
noncomputable def emptyDashboard : DashboardData :=
  { plant_overview :=
      { overall_efficiency := 0, production_rate_current := 0, production_rate_target := 0,
        energy_consumption_current := 0, energy_consumption_target := 0, quality_score_avg := 0,
        active_alerts_count := 0, equipment_running_count := 0, equipment_total_count := 0,
        environmental_compliance := false }
    recent_sensors := []
    current_parameters :=
      { kiln_temperature := 0, kiln_pressure := 0, raw_mill_power := 0, cement_mill_power := 0,
        production_rate := 0, energy_consumption := 0, alternative_fuel_rate := 0,
        raw_meal_flow := 0, cement_fineness := 0, clinker_temperature := 0,
        exhaust_fan_speed := 0, preheater_temperature := 0 }
    recent_quality := []
    equipment_status := []
    active_alerts := []
    ai_recommendations := []
    environmental_data :=
      { co2_emissions := 0, nox_emissions := 0, so2_emissions := 0, dust_emissions := 0,
        energy_consumption_specific := 0, alternative_fuel_substitution := 0,
        waste_heat_recovery := 0, water_consumption := 0 } }

/-- Witness for C4 (amended) at a state caching `emptyDashboard`. -/
theorem c4_pull_behaviour_witness :
    handleDashboardData 2000 0 0 "" (fun _ => 0)
        { initialServerState with latestDashboardData := some emptyDashboard } =
      ({ initialServerState with latestDashboardData := some emptyDashboard }, emptyDashboard) ∧
    (handleSensorsRealtime 2000 0 (fun _ => 0)
        { initialServerState with latestDashboardData := some emptyDashboard }).1 =
      { initialServerState with latestDashboardData := some emptyDashboard } ∧
    (handleSensorsRealtime 2000 0 (fun _ => 0)
        { initialServerState with latestDashboardData := some emptyDashboard }).2 =
      (generateSensorReadings 2000 0 (fun _ => 0) 0).1 ∧
    (handleProcessParameters 2000 0 (fun _ => 0)
        { initialServerState with latestDashboardData := some emptyDashboard }).1.lastParameters =
      some (generateProcessParameters 2000 0 (fun _ => 0)) :=
  c4_pull_behaviour 2000 0 0 "" (fun _ => 0)
    { initialServerState with latestDashboardData := some emptyDashboard } emptyDashboard rfl

/-- **C5.**  Toggling the data-source mode twice restores the original state
(in particular the original mode), a toggle never changes the replay
position, and a broadcast tick advances the position exactly when a snapshot
is consumed in REAL mode with a non-empty sequence — switching to SIMULATED
and back neither skips nor resets it. -/
theorem c5_toggle_involution (s : ServerState) (cap t : ℝ) (nowMs : ℤ) (uuid : String)
    (g : ℕ → ℝ) :
    toggleRealData (toggleRealData s) = s ∧
    (toggleRealData s).realDataIndex = s.realDataIndex ∧
    (broadcastData cap t nowMs uuid g s).1.realDataIndex =
      (if s.realDataEnabled = true ∧ 0 < s.realDataSource.length then s.realDataIndex + 1
        else s.realDataIndex) :=
  ⟨by simp [toggleRealData], rfl, broadcastData_index cap t nowMs uuid g s⟩

end CementOps
